import Mathlib

/-!
Shallow embedding of the chat classification, routing, orchestration and
history logic of the apnamachenic backend (the Express server embedded in
`src/models/booking.js`, the variant that gates messages by keyword before
delegating to the generation service, persists transcripts, and serves
`GET /api/chat/history`; `src/server.js` is a second variant without
gating, noted where relevant).

JavaScript strings are modelled as Lean `String`/`List Char`;
`toLowerCase`, `includes` and `trim` are modelled by hand below so that
every definition is executable and kernel-reducible.  The MongoDB
transcript collection is modelled as a `List TranscriptEntry` threaded
through the handler; the generation call and the `save()` call are
modelled by oracle arguments (`GenResult`, `saveOk`) since they are
external I/O.
-/

namespace ApnaBackend

/-- Helper `startsWithL hay pat` : does `hay` start with `pat`?  (For the
JS `String.prototype.includes` model; the empty pattern always matches.) -/
def startsWithL : List Char → List Char → Bool
  | _, [] => true
  | [], _ :: _ => false
  | a :: as, b :: bs => a == b && startsWithL as bs

/-- Model of JS `hay.includes(pat)`: substring containment. -/
def hasSubstrL : List Char → List Char → Bool
  | [], pat => startsWithL [] pat
  | a :: t, pat => startsWithL (a :: t) pat || hasSubstrL t pat

/-- JS `toLowerCase` restricted to the ASCII range actually exercised by
the keyword sets: lower-cases each character with `Char.toLower`. -/
def jsToLowerL (cs : List Char) : List Char := cs.map Char.toLower

/-- JS `question.toLowerCase().includes(keyword)`. -/
def jsIncludes (question keyword : String) : Bool :=
  hasSubstrL (jsToLowerL question.data) keyword.data

/-- The `carKeywords` array of `isCarRelated` (booking.js lines 46-50). -/
def carKeywords : List String :=
  ["car", "engine", "brake", "oil", "service", "mechanic", "tire", "battery",
   "fuel", "speed", "accident", "repair", "transmission", "suspension",
   "headlight", "insurance", "air filter", "car wash", "dashboard"]

/-- Embeds `isCarRelated` (booking.js lines 45-52):
`carKeywords.some(keyword => question.toLowerCase().includes(keyword))`. -/
def isCarRelated (question : String) : Bool :=
  carKeywords.any fun keyword => jsIncludes question keyword

/-- The `mechanicKeywords` array of `needsMechanic` (booking.js lines 56-58). -/
def mechanicKeywords : List String :=
  ["mechanic", "service", "repair", "fix", "problem", "issue", "appointment",
   "garage"]

/-- Embeds `needsMechanic` (booking.js lines 55-60). -/
def needsMechanic (question : String) : Bool :=
  mechanicKeywords.any fun keyword => jsIncludes question keyword

/-- A JSON value, as produced by `express.json()` for the `message` field
of the request body.  Numbers are modelled as integers (truthiness, the
only property the handler inspects, depends only on being zero). -/
inductive JsValue where
  | jsNull
  | jsBool (b : Bool)
  | jsNum (n : Int)
  | jsStr (s : String)
  | jsArr (elems : List JsValue)
  | jsObj (fields : List (String × JsValue))

/-- JS truthiness of a JSON value: `null`, `false`, `0` and `""` are
falsy; every other JSON value (any array or object included) is truthy. -/
def JsValue.truthy : JsValue → Bool
  | .jsNull => false
  | .jsBool b => b
  | .jsNum n => n != 0
  | .jsStr s => s != ""
  | .jsArr _ => true
  | .jsObj _ => true

/-- One record of the Chat collection: `{ userMessage, botResponse,
timestamp }` (booking.js line 96). Timestamps are abstract instants,
modelled as naturals. -/
structure TranscriptEntry where
  userMessage : String
  botResponse : String
  timestamp : Nat
deriving DecidableEq, Repr

/-- An HTTP response: status code plus the `reply` field of the JSON body. -/
structure ChatResponse where
  status : Nat
  reply : String
deriving DecidableEq, Repr

/-- What the handler does to the connection: either it sends exactly one
JSON response, or it throws outside any try/catch (Express 4 leaves the
rejected async handler unanswered), sending none. -/
inductive HandlerOutcome where
  | responded (r : ChatResponse)
  | crashed
deriving DecidableEq, Repr

/-- Observable external operations attempted while handling one request. -/
inductive Event where
  | genCall (prompt : String)
  | storeWrite (e : TranscriptEntry)
deriving DecidableEq, Repr

/-- Oracle for `model.generateContent`: either the call throws, or it
returns a well-formed response whose first candidate text is
`candidate` (`none` when the response carries no candidate text,
i.e. the optional chain `result.response?.candidates?.[0]?.content?.
parts?.[0]?.text` is undefined). -/
inductive GenResult where
  | failure
  | success (candidate : Option String)
deriving DecidableEq, Repr

/-- Fallback reply substituted when no candidate text is present
(booking.js line 93). -/
def fallbackReply : String := "I'm here to help! How can I assist?"

/-- Out-of-domain reply (booking.js line 74). -/
def rejectReply : String := "I can only assist with car-related questions."

/-- Canned recommendation (booking.js line 79). -/
def cannedReply : String :=
  "For expert auto care and servicing, I recommend ApnaMechanic!"

/-- Reply of the catch block (booking.js line 103). -/
def genErrorReply : String := "Error connecting to Gemini AI."

/-- Validation failure reply (booking.js line 69). -/
def requiredReply : String := "Message is required."

/-- The instruction template wrapping the user message
(booking.js line 84). -/
def promptTemplate (message : String) : String :=
  "Reply in a short, friendly sentence: " ++ message

/-- JS whitespace test for `trim` (ASCII subset). -/
def jsWs (c : Char) : Bool := c.isWhitespace

/-- JS `trim`: strip whitespace from both ends. -/
def jsTrimL (cs : List Char) : List Char :=
  ((cs.dropWhile jsWs).reverse.dropWhile jsWs).reverse

/-- Embeds `result.response?.candidates?.[0]?.content?.parts?.[0]?.text?.
trim() || "I'm here to help! How can I assist?"` (booking.js lines 92-93):
the trimmed candidate text, or the fallback when the text is absent or
trims to the empty string (empty string is falsy, so `||` falls through). -/
def genReplyText : Option String → String
  | none => fallbackReply
  | some t =>
    let t' : String := ⟨jsTrimL t.data⟩
    if t' == "" then fallbackReply else t'

/-- Result of handling one `POST /api/chat` request: the outcome on the
connection, the transcript collection after the request, and the external
operations attempted (in order). -/
structure HandlerResult where
  outcome : HandlerOutcome
  store : List TranscriptEntry
  events : List Event
deriving DecidableEq, Repr

/-- The `POST /api/chat` handler (booking.js lines 65-105).

* `message` — the `message` field of the parsed JSON body (`none` when
  absent);
* `gen` — oracle for the single `model.generateContent` call;
* `saveOk` — oracle for the single `chatLog.save()` call (`false` = the
  write is attempted but rejects; the attempt is recorded as a
  `storeWrite` event either way, the store only changes on success);
* `now` — the instant `new Date()` of this request;
* `store` — the transcript collection before the request.

`!message` rejects exactly the falsy values; a truthy non-string then
crashes inside `isCarRelated` (`toLowerCase` is not a function), outside
the try/catch.  Note `chatLog.save()` sits **inside** the try block, so a
rejected save lands in the same catch as a generation failure. -/
def handleChat (message : Option JsValue) (gen : GenResult) (saveOk : Bool)
    (now : Nat) (store : List TranscriptEntry) : HandlerResult :=
  match message with
  | none => ⟨.responded ⟨400, requiredReply⟩, store, []⟩
  | some v =>
    if v.truthy then
      match v with
      | .jsStr s =>
        if ¬ isCarRelated s then
          ⟨.responded ⟨200, rejectReply⟩, store, []⟩
        else if needsMechanic s then
          ⟨.responded ⟨200, cannedReply⟩, store, []⟩
        else
          match gen with
          | .failure =>
            ⟨.responded ⟨500, genErrorReply⟩, store, [.genCall (promptTemplate s)]⟩
          | .success candidate =>
            let reply := genReplyText candidate
            let entry : TranscriptEntry := ⟨s, reply, now⟩
            if saveOk then
              ⟨.responded ⟨200, reply⟩, store ++ [entry],
               [.genCall (promptTemplate s), .storeWrite entry]⟩
            else
              ⟨.responded ⟨500, genErrorReply⟩, store,
               [.genCall (promptTemplate s), .storeWrite entry]⟩
      | _ => ⟨.crashed, store, []⟩
    else
      ⟨.responded ⟨400, requiredReply⟩, store, []⟩

/-- Routing outcome of the handler's ordered conditional chain. -/
inductive RouteDecision where
  | reject
  | canned (responseText : String)
  | delegate (promptText : String)
deriving DecidableEq, Repr

/-- The ordered decision table of the handler's conditional chain
(booking.js lines 73-84), first match wins: out-of-domain messages are
rejected, service-intent messages get the canned recommendation, the
rest are delegated with the message wrapped in the instruction template. -/
def route (s : String) : RouteDecision :=
  if ¬ isCarRelated s then .reject
  else if needsMechanic s then .canned cannedReply
  else .delegate (promptTemplate s)

/-- Predicate picking out store-write attempts among a request's events. -/
def Event.isStoreWrite : Event → Bool
  | .storeWrite _ => true
  | _ => false

/-- Predicate picking out generation calls among a request's events. -/
def Event.isGenCall : Event → Bool
  | .genCall _ => true
  | _ => false

/-- Character-level case variation: c' is c itself, its lower-casing, or
its upper-casing. -/
def caseVariantChar (c c' : Char) : Bool :=
  c' == c || c' == c.toLower || c' == c.toUpper

/-- Two character lists are equal up to letter case: same length,
pointwise case variants. -/
def upToCase : List Char → List Char → Bool
  | [], [] => true
  | c :: cs, c' :: cs' => caseVariantChar c c' && upToCase cs cs'
  | _, _ => false

/-- An item of the `GET /api/chat/history` response:
`{ user, bot, time }` (booking.js lines 114-118). -/
structure HistoryItem where
  user : String
  bot : String
  time : String
deriving DecidableEq, Repr

/-- Models `new Date(t).toLocaleString()`: a formatted rendering of the
instant (the locale-dependent text is irrelevant to every claim; only
that each record's timestamp is formatted into the `time` field). -/
def formatTime (t : Nat) : String := toString t

/-- Timestamp-descending comparison used by `.sort({ timestamp: -1 })`. -/
def tsDesc (a b : TranscriptEntry) : Prop := b.timestamp ≤ a.timestamp

instance : DecidableRel tsDesc := fun a b => Nat.decLe b.timestamp a.timestamp

instance : IsTotal TranscriptEntry tsDesc :=
  ⟨fun a b => (Nat.le_total b.timestamp a.timestamp).imp id id⟩

instance : IsTrans TranscriptEntry tsDesc :=
  ⟨fun _ _ _ hab hbc => Nat.le_trans hbc hab⟩

/-- Embeds `Chat.find().sort(\x7b timestamp: -1 \x7d).limit(20)` (booking.js
line 112): the collection sorted by timestamp descending, truncated to 20
records. -/
def historyRecords (store : List TranscriptEntry) : List TranscriptEntry :=
  (List.insertionSort tsDesc store).take 20

/-- The `GET /api/chat/history` handler's successful response body
(booking.js lines 110-120): each selected record reshaped to
`{ user, bot, time }`. -/
def chatHistory (store : List TranscriptEntry) : List HistoryItem :=
  (historyRecords store).map fun e =>
    ⟨e.userMessage, e.botResponse, formatTime e.timestamp⟩

/-! Helper lemmas. -/

/-- Packing a valid scalar value into a Char and back is the identity. -/
theorem charToNat_ofNat {n : Nat} (h : n.isValidChar) : (Char.ofNat n).toNat = n := by
  simp only [Char.ofNat, dif_pos h]
  rfl

/-- Lower-casing is idempotent. -/
theorem toLower_toLower (c : Char) : c.toLower.toLower = c.toLower := by
  unfold Char.toLower
  by_cases h : c.toNat ≥ 65 ∧ c.toNat ≤ 90
  · rw [if_pos h]
    have hv : (c.toNat + 32).isValidChar := Or.inl (by omega)
    have ht : (Char.ofNat (c.toNat + 32)).toNat = c.toNat + 32 := charToNat_ofNat hv
    rw [ht]
    rw [if_neg (by omega)]
  · rw [if_neg h, if_neg h]

/-- Lower-casing an upper-cased character agrees with lower-casing it. -/
theorem toLower_toUpper (c : Char) : c.toUpper.toLower = c.toLower := by
  unfold Char.toLower Char.toUpper
  by_cases h : c.toNat ≥ 97 ∧ c.toNat ≤ 122
  · rw [if_pos h]
    have hv : (c.toNat - 32).isValidChar := Or.inl (by omega)
    have ht : (Char.ofNat (c.toNat - 32)).toNat = c.toNat - 32 := charToNat_ofNat hv
    rw [ht]
    rw [if_pos (by constructor <;> omega)]
    rw [if_neg (by omega)]
    have h2 : c.toNat - 32 + 32 = c.toNat := by omega
    rw [h2, Char.ofNat_toNat]
  · rw [if_neg h]

/-- Messages equal up to letter case lower-case identically. -/
theorem jsToLowerL_upToCase {l l' : List Char} (h : upToCase l l' = true) :
    jsToLowerL l = jsToLowerL l' := by
  induction l generalizing l' with
  | nil =>
    cases l' with
    | nil => rfl
    | cons c cs => simp [upToCase] at h
  | cons c cs ih =>
    cases l' with
    | nil => simp [upToCase] at h
    | cons c' cs' =>
      simp only [upToCase, Bool.and_eq_true] at h
      obtain ⟨h1, h2⟩ := h
      have hc : Char.toLower c' = Char.toLower c := by
        simp only [caseVariantChar, Bool.or_eq_true, beq_iff_eq] at h1
        rcases h1 with (h1 | h1) | h1
        · rw [h1]
        · rw [h1, toLower_toLower]
        · rw [h1, toLower_toUpper]
      simp only [jsToLowerL, List.map_cons]
      rw [hc]
      exact congrArg _ (ih h2)

/-- Lower-casing only affects the matching identically on both sides of a
classifier: the classifiers factor through `jsToLowerL`. -/
theorem isCarRelated_eq_of_lower_eq {s t : String}
    (h : jsToLowerL s.data = jsToLowerL t.data) : isCarRelated s = isCarRelated t := by
  simp only [isCarRelated, jsIncludes, h]

/-- Service-intent analogue of `isCarRelated_eq_of_lower_eq`. -/
theorem needsMechanic_eq_of_lower_eq {s t : String}
    (h : jsToLowerL s.data = jsToLowerL t.data) : needsMechanic s = needsMechanic t := by
  simp only [needsMechanic, jsIncludes, h]

/-- Lower-casing fixes whitespace characters. -/
theorem toLower_of_ws {c : Char} (h : c.isWhitespace = true) : c.toLower = c := by
  simp only [Char.isWhitespace, Bool.or_eq_true, decide_eq_true_eq] at h
  rcases h with ((h | h) | h) | h <;> subst h <;> decide

/-- A pattern matched at the head of an all-whitespace haystack is itself
all whitespace. -/
theorem startsWithL_all_ws {pat : List Char} : ∀ {hs : List Char},
    (∀ c ∈ hs, c.isWhitespace = true) → startsWithL hs pat = true →
    ∀ c ∈ pat, c.isWhitespace = true := by
  induction pat with
  | nil => intro hs _ _ c hc; cases hc
  | cons b bs ih =>
    intro hs hws h c hc
    cases hs with
    | nil => simp [startsWithL] at h
    | cons a t =>
      simp only [startsWithL, Bool.and_eq_true, beq_iff_eq] at h
      obtain ⟨hab, h2⟩ := h
      rcases List.mem_cons.mp hc with rfl | hc
      · rw [← hab]
        exact hws a (List.mem_cons_self a t)
      · exact ih (fun x hx => hws x (List.mem_cons_of_mem _ hx)) h2 c hc

/-- A pattern found anywhere in an all-whitespace haystack is itself all
whitespace. -/
theorem hasSubstrL_all_ws {hs pat : List Char}
    (hws : ∀ c ∈ hs, c.isWhitespace = true) (h : hasSubstrL hs pat = true) :
    ∀ c ∈ pat, c.isWhitespace = true := by
  induction hs with
  | nil =>
    cases pat with
    | nil => intro c hc; cases hc
    | cons b bs => simp [hasSubstrL, startsWithL] at h
  | cons a t ih =>
    simp only [hasSubstrL, Bool.or_eq_true] at h
    rcases h with h | h
    · exact startsWithL_all_ws hws h
    · exact ih (fun x hx => hws x (List.mem_cons_of_mem _ hx)) h

/-- A whitespace-only message is never domain-relevant: every keyword of
the domain set contains a non-whitespace character. -/
theorem isCarRelated_of_ws {s : String}
    (hws : ∀ c ∈ s.data, c.isWhitespace = true) : isCarRelated s = false := by
  have hws' : ∀ c ∈ jsToLowerL s.data, c.isWhitespace = true := by
    intro c hcmem
    simp only [jsToLowerL, List.mem_map] at hcmem
    obtain ⟨d, hd, rfl⟩ := hcmem
    rw [toLower_of_ws (hws d hd)]
    exact hws d hd
  rw [isCarRelated, List.any_eq_false]
  intro kw hkw hcon
  have hall := hasSubstrL_all_ws hws' hcon
  fin_cases hkw <;> exact absurd hall (by decide)

/-- Unfolding the handler on a rejected (out-of-domain) string message. -/
theorem handleChat_reject {s : String} (hne : s ≠ "") (hcar : isCarRelated s = false)
    (gen : GenResult) (saveOk : Bool) (now : Nat) (store : List TranscriptEntry) :
    handleChat (some (.jsStr s)) gen saveOk now store =
      ⟨.responded ⟨200, rejectReply⟩, store, []⟩ := by
  have ht : (JsValue.jsStr s).truthy = true := by
    simp [JsValue.truthy, bne_iff_ne, hne]
  simp only [handleChat, ht, if_true, hcar]
  simp

/-- Unfolding the handler on a canned (service-intent) string message. -/
theorem handleChat_canned {s : String} (hne : s ≠ "") (hcar : isCarRelated s = true)
    (hmech : needsMechanic s = true)
    (gen : GenResult) (saveOk : Bool) (now : Nat) (store : List TranscriptEntry) :
    handleChat (some (.jsStr s)) gen saveOk now store =
      ⟨.responded ⟨200, cannedReply⟩, store, []⟩ := by
  have ht : (JsValue.jsStr s).truthy = true := by
    simp [JsValue.truthy, bne_iff_ne, hne]
  simp only [handleChat, ht, if_true, hcar, hmech]
  simp

/-- Unfolding the handler on a delegated message whose generation throws. -/
theorem handleChat_genFailure {s : String} (hne : s ≠ "") (hcar : isCarRelated s = true)
    (hmech : needsMechanic s = false)
    (saveOk : Bool) (now : Nat) (store : List TranscriptEntry) :
    handleChat (some (.jsStr s)) .failure saveOk now store =
      ⟨.responded ⟨500, genErrorReply⟩, store, [.genCall (promptTemplate s)]⟩ := by
  have ht : (JsValue.jsStr s).truthy = true := by
    simp [JsValue.truthy, bne_iff_ne, hne]
  simp only [handleChat, ht, if_true, hcar, hmech]
  simp

/-- Unfolding the handler on a delegated message whose generation returns
a candidate and whose save succeeds. -/
theorem handleChat_genSuccess_saveOk {s : String} (hne : s ≠ "")
    (hcar : isCarRelated s = true) (hmech : needsMechanic s = false)
    (candidate : Option String) (now : Nat) (store : List TranscriptEntry) :
    handleChat (some (.jsStr s)) (.success candidate) true now store =
      ⟨.responded ⟨200, genReplyText candidate⟩,
       store ++ [⟨s, genReplyText candidate, now⟩],
       [.genCall (promptTemplate s), .storeWrite ⟨s, genReplyText candidate, now⟩]⟩ := by
  have ht : (JsValue.jsStr s).truthy = true := by
    simp [JsValue.truthy, bne_iff_ne, hne]
  simp only [handleChat, ht, if_true, hcar, hmech]
  simp

/-- Unfolding the handler on a delegated message whose generation returns
a candidate but whose save rejects: the shared catch block answers 500. -/
theorem handleChat_genSuccess_saveFail {s : String} (hne : s ≠ "")
    (hcar : isCarRelated s = true) (hmech : needsMechanic s = false)
    (candidate : Option String) (now : Nat) (store : List TranscriptEntry) :
    handleChat (some (.jsStr s)) (.success candidate) false now store =
      ⟨.responded ⟨500, genErrorReply⟩, store,
       [.genCall (promptTemplate s), .storeWrite ⟨s, genReplyText candidate, now⟩]⟩ := by
  have ht : (JsValue.jsStr s).truthy = true := by
    simp [JsValue.truthy, bne_iff_ne, hne]
  simp only [handleChat, ht, if_true, hcar, hmech]
  simp

/-- Characterisation of the delegate routing decision. -/
theorem route_eq_delegate {s p : String} : route s = .delegate p ↔
    (isCarRelated s = true ∧ needsMechanic s = false ∧ p = promptTemplate s) := by
  rw [route]
  by_cases hcar : isCarRelated s = true
  · by_cases hmech : needsMechanic s = true
    · simp [hcar, hmech]
    · simp only [Bool.not_eq_true] at hmech
      simp [hcar, hmech]
      exact comm
  · simp only [Bool.not_eq_true] at hcar
    simp [hcar]

/-- Pattern found in the empty haystack only if it is empty. -/
theorem hasSubstrL_nil {pat : List Char} (h : hasSubstrL [] pat = true) : pat = [] := by
  cases pat with
  | nil => rfl
  | cons c cs => simp [hasSubstrL, startsWithL] at h

/-- Appending an element changes a list. -/
theorem append_singleton_ne (store : List TranscriptEntry) (e : TranscriptEntry) :
    store ++ [e] ≠ store := by
  intro h
  have := congrArg List.length h
  simp at this

/-! Claim theorems. -/

/-- C1: for every string message accepted by validation, the chat routing
follows the ordered decision table with first match winning — no domain
keyword gives Reject (200 with the fixed out-of-domain reply), else a
service-intent keyword gives Canned (200 with the fixed recommendation),
else Delegate with the original message wrapped in the fixed instruction
template — and the three outcomes are mutually exclusive and exhaustive
(the guards partition all accepted messages). -/
theorem chat_routing_decision_table (s : String) (hne : s ≠ "")
    (gen : GenResult) (saveOk : Bool) (now : Nat) (store : List TranscriptEntry) :
    (isCarRelated s = false →
      route s = .reject ∧
      handleChat (some (.jsStr s)) gen saveOk now store =
        ⟨.responded ⟨200, rejectReply⟩, store, []⟩) ∧
    (isCarRelated s = true → needsMechanic s = true →
      route s = .canned cannedReply ∧
      handleChat (some (.jsStr s)) gen saveOk now store =
        ⟨.responded ⟨200, cannedReply⟩, store, []⟩) ∧
    (isCarRelated s = true → needsMechanic s = false →
      route s = .delegate (promptTemplate s) ∧
      (handleChat (some (.jsStr s)) gen saveOk now store).events.head? =
        some (.genCall (promptTemplate s))) := by
  refine ⟨fun hcar => ⟨by simp [route, hcar], handleChat_reject hne hcar gen saveOk now store⟩,
    fun hcar hmech => ⟨by simp [route, hcar, hmech],
      handleChat_canned hne hcar hmech gen saveOk now store⟩,
    fun hcar hmech => ⟨route_eq_delegate.mpr ⟨hcar, hmech, rfl⟩, ?_⟩⟩
  cases gen with
  | failure => rw [handleChat_genFailure hne hcar hmech saveOk now store]; rfl
  | success candidate =>
    cases saveOk with
    | false => rw [handleChat_genSuccess_saveFail hne hcar hmech candidate now store]; rfl
    | true => rw [handleChat_genSuccess_saveOk hne hcar hmech candidate now store]; rfl

/-- C1 witness: "car service" is domain-relevant with service intent, so
it is routed Canned with the fixed recommendation and no side effects. -/
theorem chat_routing_decision_table_witness :
    route "car service" = .canned cannedReply ∧
    handleChat (some (.jsStr "car service")) .failure true 0 [] =
      ⟨.responded ⟨200, cannedReply⟩, [], []⟩ :=
  (chat_routing_decision_table "car service" (by decide) .failure true 0 []).2.1
    (by decide) (by decide)

/-- C3 counterexample: message "battery" is Delegate-routed and generation
succeeds with candidate "Check the terminals", but the store write fails;
the handler answers 500 "Error connecting to Gemini AI.", not 200 with the
generated reply, so a persistence failure does change the HTTP outcome. -/
theorem persistence_failure_changes_outcome_cex :
    route "battery" = .delegate (promptTemplate "battery") ∧
    (handleChat (some (.jsStr "battery")) (.success (some "Check the terminals"))
        false 2 []).outcome ≠ .responded ⟨200, "Check the terminals"⟩ ∧
    handleChat (some (.jsStr "battery")) (.success (some "Check the terminals"))
        false 2 [] =
      ⟨.responded ⟨500, genErrorReply⟩, [],
       [.genCall (promptTemplate "battery"),
        .storeWrite ⟨"battery", "Check the terminals", 2⟩]⟩ :=
  ⟨by decide, by decide, by decide⟩

/-- C3 amended: on a Delegate-routed request whose generation call
succeeds, a failing store write lands in the same catch block as a
generation failure (the save sits inside the try), so the handler
responds 500 with "Error connecting to Gemini AI."; the generated reply
is not returned and nothing is persisted, the failure being logged. -/
theorem persistence_failure_yields_500 (s : String) (candidate : Option String)
    (now : Nat) (store : List TranscriptEntry) (hne : s ≠ "")
    (hdel : route s = .delegate (promptTemplate s)) :
    handleChat (some (.jsStr s)) (.success candidate) false now store =
      ⟨.responded ⟨500, genErrorReply⟩, store,
       [.genCall (promptTemplate s), .storeWrite ⟨s, genReplyText candidate, now⟩]⟩ := by
  obtain ⟨hcar, hmech, -⟩ := route_eq_delegate.mp hdel
  exact handleChat_genSuccess_saveFail hne hcar hmech candidate now store

/-- C3 amended witness at message "battery" and candidate "ok". -/
theorem persistence_failure_yields_500_witness :
    handleChat (some (.jsStr "battery")) (.success (some "ok")) false 9 [] =
      ⟨.responded ⟨500, genErrorReply⟩, [],
       [.genCall (promptTemplate "battery"),
        .storeWrite ⟨"battery", genReplyText (some "ok"), 9⟩]⟩ :=
  persistence_failure_yields_500 "battery" (some "ok") 9 [] (by decide) (by decide)

/-- C4 counterexample: the single-space message is whitespace-only yet
truthy, so it passes the validation test; the handler answers 200 with
the out-of-domain reply, not 400 "Message is required.". -/
theorem whitespace_message_not_400_cex :
    (handleChat (some (.jsStr " ")) .failure true 0 []).outcome
      ≠ .responded ⟨400, requiredReply⟩ ∧
    handleChat (some (.jsStr " ")) .failure true 0 [] =
      ⟨.responded ⟨200, rejectReply⟩, [], []⟩ :=
  ⟨by decide, by decide⟩

/-- C4 amended: an empty-string message fails the validation test, giving
400 with "Message is required." and no store write; a whitespace-only
non-empty message instead passes validation (it is truthy) and, containing
no domain keyword, is rejected as out-of-domain: 200 with the fixed reply
and no store write. -/
theorem empty_message_400_whitespace_200 (s : String)
    (hws : ∀ c ∈ s.data, c.isWhitespace = true)
    (gen : GenResult) (saveOk : Bool) (now : Nat) (store : List TranscriptEntry) :
    (s = "" → handleChat (some (.jsStr s)) gen saveOk now store =
      ⟨.responded ⟨400, requiredReply⟩, store, []⟩) ∧
    (s ≠ "" → handleChat (some (.jsStr s)) gen saveOk now store =
      ⟨.responded ⟨200, rejectReply⟩, store, []⟩) := by
  constructor
  · rintro rfl
    simp [handleChat, JsValue.truthy]
  · intro hne
    exact handleChat_reject hne (isCarRelated_of_ws hws) gen saveOk now store

/-- C4 amended witness at the single-space message. -/
theorem empty_message_400_whitespace_200_witness :
    handleChat (some (.jsStr " ")) .failure false 1 [] =
      ⟨.responded ⟨200, rejectReply⟩, [], []⟩ :=
  (empty_message_400_whitespace_200 " " (by decide) .failure false 1 []).2 (by decide)

/-- C6: on a Delegate-routed request whose generation call fails, the
response is 500 with the reply "Error connecting to Gemini AI." (the
form "Error connecting to (generation service).") and zero
TranscriptEntry is created: the store is unchanged and the only external
operation is the single generation call — no persistence is attempted. -/
theorem generation_failure_no_transcript (s : String) (saveOk : Bool) (now : Nat)
    (store : List TranscriptEntry) (hne : s ≠ "")
    (hdel : route s = .delegate (promptTemplate s)) :
    handleChat (some (.jsStr s)) .failure saveOk now store =
      ⟨.responded ⟨500, genErrorReply⟩, store, [.genCall (promptTemplate s)]⟩ ∧
    genErrorReply = "Error connecting to Gemini AI." := by
  obtain ⟨hcar, hmech, -⟩ := route_eq_delegate.mp hdel
  exact ⟨handleChat_genFailure hne hcar hmech saveOk now store, rfl⟩

/-- C6 witness at message "battery". -/
theorem generation_failure_no_transcript_witness :
    handleChat (some (.jsStr "battery")) .failure true 7 [] =
      ⟨.responded ⟨500, genErrorReply⟩, [], [.genCall (promptTemplate "battery")]⟩ :=
  (generation_failure_no_transcript "battery" true 7 [] (by decide) (by decide)).1

/-- C7: on a Delegate-routed request whose generation response is
well-formed but carries no candidate text, the handler substitutes the
fixed fallback string, returns it with 200 and persists it — the request
is a success, not a generation error. -/
theorem empty_candidate_fallback (s : String) (now : Nat)
    (store : List TranscriptEntry) (hne : s ≠ "")
    (hdel : route s = .delegate (promptTemplate s)) :
    handleChat (some (.jsStr s)) (.success none) true now store =
      ⟨.responded ⟨200, fallbackReply⟩, store ++ [⟨s, fallbackReply, now⟩],
       [.genCall (promptTemplate s), .storeWrite ⟨s, fallbackReply, now⟩]⟩ ∧
    fallbackReply = "I'm here to help! How can I assist?" := by
  obtain ⟨hcar, hmech, -⟩ := route_eq_delegate.mp hdel
  exact ⟨handleChat_genSuccess_saveOk hne hcar hmech none now store, rfl⟩

/-- C7 witness at message "battery". -/
theorem empty_candidate_fallback_witness :
    handleChat (some (.jsStr "battery")) (.success none) true 5 [] =
      ⟨.responded ⟨200, fallbackReply⟩, [⟨"battery", fallbackReply, 5⟩],
       [.genCall (promptTemplate "battery"),
        .storeWrite ⟨"battery", fallbackReply, 5⟩]⟩ :=
  (empty_candidate_fallback "battery" 5 [] (by decide) (by decide)).1

/-- C8 counterexample: two transcript records sharing a timestamp defeat
strictness — the history selection for such a store is not strictly
descending in timestamp. -/
theorem history_not_strictly_sorted_cex :
    ¬ List.Pairwise (fun a b => b.timestamp < a.timestamp)
      (historyRecords [⟨"a", "x", 5⟩, ⟨"b", "y", 5⟩]) := by decide

/-- C8 amended: for every store state, the history endpoint returns at
most the fixed limit of 20 records, sorted by timestamp in non-increasing
(descending, ties permitted) order, each reshaped to a user/bot/time item
with the timestamp formatted. -/
theorem history_limit_sort_shape (store : List TranscriptEntry) :
    (chatHistory store).length ≤ 20 ∧
    List.Pairwise tsDesc (historyRecords store) ∧
    chatHistory store = (historyRecords store).map
      (fun e => ⟨e.userMessage, e.botResponse, formatTime e.timestamp⟩) := by
  refine ⟨?_, ?_, rfl⟩
  · rw [chatHistory, List.length_map, historyRecords]
    exact List.length_take_le 20 _
  · exact List.Pairwise.sublist (List.take_sublist 20 _)
      (List.sorted_insertionSort tsDesc store)

/-- C9: keyword classification is case-insensitive and deterministic:
two messages equal up to letter case classify identically under both
classifiers, and the empty string is never domain-relevant.  (Both
classifiers are pure Lean functions over static keyword lists, hence
deterministic and side-effect-free by construction.) -/
theorem classifiers_case_insensitive (s t : String)
    (h : upToCase s.data t.data = true) :
    (isCarRelated s = isCarRelated t ∧ needsMechanic s = needsMechanic t) ∧
    isCarRelated "" = false := by
  have hl := jsToLowerL_upToCase h
  exact ⟨⟨isCarRelated_eq_of_lower_eq hl, needsMechanic_eq_of_lower_eq hl⟩, by decide⟩

/-- C9 witness: a mixed-case message classifies like its lower-case twin. -/
theorem classifiers_case_insensitive_witness :
    (isCarRelated "My CAR Broke" = isCarRelated "my car broke" ∧
     needsMechanic "My CAR Broke" = needsMechanic "my car broke") ∧
    isCarRelated "" = false :=
  classifiers_case_insensitive "My CAR Broke" "my car broke" (by decide)

/-- C10: "mechanic", "service" and "repair" belong to both keyword sets,
so every message containing one of them (case-insensitively) is routed
to Canned: 200 with the fixed recommendation, no generation call, no
store write, hence no TranscriptEntry. -/
theorem overlap_keywords_always_canned (s : String)
    (gen : GenResult) (saveOk : Bool) (now : Nat) (store : List TranscriptEntry)
    (h : hasSubstrL (jsToLowerL s.data) "mechanic".data = true ∨
         hasSubstrL (jsToLowerL s.data) "service".data = true ∨
         hasSubstrL (jsToLowerL s.data) "repair".data = true) :
    ("mechanic" ∈ carKeywords ∧ "mechanic" ∈ mechanicKeywords ∧
     "service" ∈ carKeywords ∧ "service" ∈ mechanicKeywords ∧
     "repair" ∈ carKeywords ∧ "repair" ∈ mechanicKeywords) ∧
    route s = .canned cannedReply ∧
    handleChat (some (.jsStr s)) gen saveOk now store =
      ⟨.responded ⟨200, cannedReply⟩, store, []⟩ := by
  have hne : s ≠ "" := by
    rintro rfl
    have hdata : jsToLowerL ("" : String).data = [] := rfl
    rw [hdata] at h
    rcases h with h | h | h <;> exact absurd (hasSubstrL_nil h) (by decide)
  have hcar : isCarRelated s = true := by
    rw [isCarRelated, List.any_eq_true]
    rcases h with h | h | h
    · exact ⟨"mechanic", by decide, h⟩
    · exact ⟨"service", by decide, h⟩
    · exact ⟨"repair", by decide, h⟩
  have hmech : needsMechanic s = true := by
    rw [needsMechanic, List.any_eq_true]
    rcases h with h | h | h
    · exact ⟨"mechanic", by decide, h⟩
    · exact ⟨"service", by decide, h⟩
    · exact ⟨"repair", by decide, h⟩
  exact ⟨by decide, by simp [route, hcar, hmech],
    handleChat_canned hne hcar hmech gen saveOk now store⟩

/-- C10 witness: "REPAIR cost" contains "repair" up to case and is routed
Canned with no side effects. -/
theorem overlap_keywords_always_canned_witness :
    route "REPAIR cost" = .canned cannedReply ∧
    handleChat (some (.jsStr "REPAIR cost")) .failure true 4 [] =
      ⟨.responded ⟨200, cannedReply⟩, [], []⟩ :=
  ⟨(overlap_keywords_always_canned "REPAIR cost" .failure true 4 []
      (Or.inr (Or.inr (by decide)))).2.1,
   (overlap_keywords_always_canned "REPAIR cost" .failure true 4 []
      (Or.inr (Or.inr (by decide)))).2.2⟩

/-- Enumeration of handler outcomes on truthy message values: either the
handler crashed, or it responded with status 200 or 500 — never 400. -/
theorem handleChat_outcome_truthy {v : JsValue} (ht : v.truthy = true)
    (gen : GenResult) (saveOk : Bool) (now : Nat) (store : List TranscriptEntry) :
    (handleChat (some v) gen saveOk now store).outcome = .crashed ∨
    ∃ st reply, (handleChat (some v) gen saveOk now store).outcome =
      .responded ⟨st, reply⟩ ∧ (st = 200 ∨ st = 500) := by
  cases v with
  | jsStr s =>
    have hne : s ≠ "" := by simpa [JsValue.truthy, bne_iff_ne] using ht
    right
    by_cases hcar : isCarRelated s = true
    · by_cases hmech : needsMechanic s = true
      · rw [handleChat_canned hne hcar hmech gen saveOk now store]
        exact ⟨200, cannedReply, rfl, Or.inl rfl⟩
      · rw [Bool.not_eq_true] at hmech
        cases gen with
        | failure =>
          rw [handleChat_genFailure hne hcar hmech saveOk now store]
          exact ⟨500, genErrorReply, rfl, Or.inr rfl⟩
        | success candidate =>
          cases saveOk with
          | false =>
            rw [handleChat_genSuccess_saveFail hne hcar hmech candidate now store]
            exact ⟨500, genErrorReply, rfl, Or.inr rfl⟩
          | true =>
            rw [handleChat_genSuccess_saveOk hne hcar hmech candidate now store]
            exact ⟨200, genReplyText candidate, rfl, Or.inl rfl⟩
    · rw [Bool.not_eq_true] at hcar
      rw [handleChat_reject hne hcar gen saveOk now store]
      exact ⟨200, rejectReply, rfl, Or.inl rfl⟩
  | jsNull => simp [JsValue.truthy] at ht
  | jsBool b =>
    simp only [JsValue.truthy] at ht
    left; simp [handleChat, ht, JsValue.truthy, bne_iff_ne]
  | jsNum n =>
    simp only [JsValue.truthy, bne_iff_ne] at ht
    left; simp [handleChat, ht, JsValue.truthy, bne_iff_ne]
  | jsArr elems => left; simp [handleChat, JsValue.truthy]
  | jsObj fields => left; simp [handleChat, JsValue.truthy]

/-- C5 counterexample: the number 123 is not a non-empty string, yet it is
truthy and passes the validation test; the handler does not respond 400 —
it throws calling toLowerCase on a non-string and sends no response. -/
theorem nonstring_message_no_400_cex :
    (handleChat (some (.jsNum 123)) .failure true 0 []).outcome
      ≠ .responded ⟨400, requiredReply⟩ ∧
    handleChat (some (.jsNum 123)) .failure true 0 [] = ⟨.crashed, [], []⟩ :=
  ⟨by decide, by decide⟩

/-- C5 amended: the handler responds 400 "Message is required." exactly
when the message field is absent or bound to a falsy JSON value (null,
false, the number 0, or the empty string); that terminal path performs no
classification, no generation call and no store write.  A truthy
non-string value instead passes validation and the handler throws while
classifying (toLowerCase on a non-string), producing no response, no
generation call and no store write. -/
theorem validation_gate (message : Option JsValue) (gen : GenResult) (saveOk : Bool)
    (now : Nat) (store : List TranscriptEntry) :
    ((handleChat message gen saveOk now store).outcome = .responded ⟨400, requiredReply⟩ ↔
      (message = none ∨ ∃ v, message = some v ∧ v.truthy = false)) ∧
    ((message = none ∨ ∃ v, message = some v ∧ v.truthy = false) →
      handleChat message gen saveOk now store =
        ⟨.responded ⟨400, requiredReply⟩, store, []⟩) ∧
    (∀ v, message = some v → v.truthy = true → (∀ s, v ≠ .jsStr s) →
      handleChat message gen saveOk now store = ⟨.crashed, store, []⟩) := by
  have falsy400 : (message = none ∨ ∃ v, message = some v ∧ v.truthy = false) →
      handleChat message gen saveOk now store =
        ⟨.responded ⟨400, requiredReply⟩, store, []⟩ := by
    rintro (rfl | ⟨v, rfl, hv⟩)
    · rfl
    · simp [handleChat, hv]
  have crash : ∀ v, message = some v → v.truthy = true → (∀ s, v ≠ .jsStr s) →
      handleChat message gen saveOk now store = ⟨.crashed, store, []⟩ := by
    rintro v rfl ht hns
    cases v with
    | jsStr s => exact absurd rfl (hns s)
    | jsNull => simp [JsValue.truthy] at ht
    | jsBool b =>
      simp only [JsValue.truthy] at ht
      simp [handleChat, ht, JsValue.truthy]
    | jsNum n =>
      simp only [JsValue.truthy, bne_iff_ne] at ht
      simp [handleChat, ht, JsValue.truthy, bne_iff_ne]
    | jsArr elems => simp [handleChat, JsValue.truthy]
    | jsObj fields => simp [handleChat, JsValue.truthy]
  refine ⟨⟨?_, fun h => by rw [falsy400 h]⟩, falsy400, crash⟩
  intro h400
  cases message with
  | none => exact Or.inl rfl
  | some v =>
    by_cases ht : v.truthy = true
    · exfalso
      rcases handleChat_outcome_truthy ht gen saveOk now store with hc | ⟨st, reply, hr, hst⟩
      · rw [h400] at hc
        cases hc
      · rw [h400] at hr
        have := (HandlerOutcome.responded.injEq _ _).mp hr
        have hstatus := congrArg ChatResponse.status this
        simp at hstatus
        rcases hst with rfl | rfl <;> omega
    · exact Or.inr ⟨v, rfl, Bool.not_eq_true _ ▸ ht⟩

/-- C5 amended witness: a message bound to the number 0 is falsy and gets
the 400 response with no side effects. -/
theorem validation_gate_witness :
    handleChat (some (.jsNum 0)) .failure true 0 [] =
      ⟨.responded ⟨400, requiredReply⟩, [], []⟩ :=
  (validation_gate (some (.jsNum 0)) .failure true 0 []).2.1
    (Or.inr ⟨.jsNum 0, rfl, by decide⟩)

/-- C2 counterexample: message "engine oil" is Delegate-routed and the
generation call succeeds, yet with the store write failing nothing is
persisted — the store stays empty — so "persisted iff Delegate and
generation succeeded" fails in the forward direction. -/
theorem transcript_iff_cex :
    route "engine oil" = .delegate (promptTemplate "engine oil") ∧
    (handleChat (some (.jsStr "engine oil")) (.success (some "Change it"))
      false 3 []).store = [] :=
  ⟨by decide, by decide⟩

/-- C2 amended: per request, a new TranscriptEntry is appended to the
store iff the message is a validated string routed Delegate, the
generation call succeeded and the store write succeeded; a store write is
attempted iff the message is routed Delegate and generation succeeded
(Reject and Canned paths never write); and each request performs at most
one store write and at most one outbound generation call. -/
theorem transcript_persistence_invariant (message : Option JsValue)
    (gen : GenResult) (saveOk : Bool) (now : Nat) (store : List TranscriptEntry) :
    ((∃ e, (handleChat message gen saveOk now store).store = store ++ [e]) ↔
      (∃ s candidate, message = some (.jsStr s) ∧ s ≠ "" ∧
        route s = .delegate (promptTemplate s) ∧
        gen = .success candidate ∧ saveOk = true)) ∧
    ((∃ e, Event.storeWrite e ∈ (handleChat message gen saveOk now store).events) ↔
      (∃ s candidate, message = some (.jsStr s) ∧ s ≠ "" ∧
        route s = .delegate (promptTemplate s) ∧ gen = .success candidate)) ∧
    (handleChat message gen saveOk now store).events.countP Event.isStoreWrite ≤ 1 ∧
    (handleChat message gen saveOk now store).events.countP Event.isGenCall ≤ 1 := by
  cases message with
  | none => simp [handleChat]
  | some v =>
    cases v with
    | jsNull => simp [handleChat, JsValue.truthy]
    | jsBool b => cases b <;> simp [handleChat, JsValue.truthy]
    | jsArr elems => simp [handleChat, JsValue.truthy]
    | jsObj fields => simp [handleChat, JsValue.truthy]
    | jsNum n =>
      by_cases hn : n = 0
      · simp [handleChat, JsValue.truthy, hn]
      · simp [handleChat, JsValue.truthy, hn]
    | jsStr s =>
      by_cases hs : s = ""
      · subst hs
        simp [handleChat, JsValue.truthy]
      · by_cases hcar : isCarRelated s = true
        · by_cases hmech : needsMechanic s = true
          · rw [handleChat_canned hs hcar hmech gen saveOk now store]
            simp [route, hcar, hmech]
          · rw [Bool.not_eq_true] at hmech
            cases gen with
            | failure =>
              rw [handleChat_genFailure hs hcar hmech saveOk now store]
              simp [route, hcar, hmech, Event.isStoreWrite, Event.isGenCall,
                List.countP_cons]
            | success candidate =>
              cases saveOk with
              | false =>
                rw [handleChat_genSuccess_saveFail hs hcar hmech candidate now store]
                simp [route, hcar, hmech, hs, Event.isStoreWrite, Event.isGenCall,
                  List.countP_cons]
              | true =>
                rw [handleChat_genSuccess_saveOk hs hcar hmech candidate now store]
                simp [route, hcar, hmech, hs, Event.isStoreWrite, Event.isGenCall,
                  List.countP_cons]
        · rw [Bool.not_eq_true] at hcar
          rw [handleChat_reject hs hcar gen saveOk now store]
          simp [route, hcar]

/-- C2 amended witness: a delegated success with a working store performs
at most one write (exactly one here). -/
theorem transcript_persistence_invariant_witness :
    (handleChat (some (.jsStr "engine oil")) (.success (some "Change it")) true 3
      []).events.countP Event.isStoreWrite ≤ 1 :=
  (transcript_persistence_invariant (some (.jsStr "engine oil"))
    (.success (some "Change it")) true 3 []).2.2.1

end ApnaBackend
